import Mathlib

set_option maxRecDepth 8000

set_option allowUnsafeReducibility true in
attribute [semireducible] Rat.add Rat.mul Rat.inv Rat.sub Rat.div Rat.ofScientific

/-!
# Verification of the IOT support chatbot session engine

A shallow embedding, in Lean 4, of the conversation-session core of the
`iot_support_chatbot` repository:

* `src/product_router.py`  — query classification and product routing,
* `src/session_manager.py` — the in-memory session registry,
* `src/feedback_manager.py` — feedback collection and expert resolution,
* `config/settings.py`     — the concrete product / expert configuration.

Python strings are modelled as `String` / `List Char`; Python floats are
modelled as exact rationals `ℚ`; the Python dictionaries holding session
state are modelled as association lists with dict semantics (replace the
existing binding in place, otherwise append).  Time (`datetime.now()`) is an
explicit integer-valued parameter, measured in seconds.  Durable-store
(MySQL) outcomes are explicit boolean / option inputs, since the database is
an external collaborator.
-/

set_option linter.unusedVariables false
set_option linter.unnecessarySimpa false

/-! ## Basic string helpers (Python `str` operations) -/

/-- `startsWithL needle hay` is Python's `hay.startswith(needle)` on char lists. -/
def startsWithL : List Char → List Char → Bool
  | [], _ => true
  | _ :: _, [] => false
  | c :: cs, d :: ds => c = d && startsWithL cs ds

/-- `containsSub hay needle` is Python's `needle in hay` (contiguous substring). -/
def containsSub : List Char → List Char → Bool
  | [], needle => startsWithL needle []
  | c :: t, needle => startsWithL needle (c :: t) || containsSub t needle

/-- Python `str.lower()` (ASCII case folding, as used by the router). -/
def pyLower (s : String) : List Char :=
  s.data.map Char.toLower

/-- Python `str.strip()`: remove leading and trailing whitespace. -/
def stripL (l : List Char) : List Char :=
  ((l.dropWhile Char.isWhitespace).reverse.dropWhile Char.isWhitespace).reverse

/-- Python `query.lower().strip()`. -/
def pyLowerStrip (s : String) : List Char :=
  stripL (pyLower s)

/-! ## `difflib.SequenceMatcher.ratio()`

`ProductRouter.calculate_similarity` calls
`SequenceMatcher(None, query_lower, keyword).ratio()`.  For the keyword
lengths used here (all below the autojunk limit of 200) the matcher has no
junk elements, so `find_longest_match` returns the longest matching block,
ties broken by the smallest index in `a`, then the smallest index in `b`;
`ratio` is twice the total size of all matching blocks divided by the sum of
both lengths. -/

/-- Length of the common run of equal characters at the heads of two lists. -/
def commonRun : List Char → List Char → Nat
  | a :: as, b :: bs => if a = b then commonRun as bs + 1 else 0
  | _, _ => 0

/-- Size of the matching block starting at `(i, j)`, clipped to the window
ending at `(ahi, bhi)`. -/
def clipRun (A B : List Char) (ahi bhi i j : Nat) : Nat :=
  min (commonRun (A.drop i) (B.drop j)) (min (ahi - i) (bhi - j))

/-- `SequenceMatcher.find_longest_match` on the window
`a[alo:ahi]`, `b[blo:bhi]` (no junk): the longest matching block, ties
resolved towards the smallest `i`, then the smallest `j`.  Returns
`(i, j, size)`. -/
def findLongestMatch (A B : List Char) (alo ahi blo bhi : Nat) : Nat × Nat × Nat :=
  (List.range' alo (ahi - alo)).foldl
    (fun best i =>
      (List.range' blo (bhi - blo)).foldl
        (fun best j =>
          let k := clipRun A B ahi bhi i j
          if best.2.2 < k then (i, j, k) else best)
        best)
    (alo, blo, 0)

/-- Total size of all matching blocks (`get_matching_blocks` recursion),
with explicit fuel; `fuel = ahi + bhi + 1` always suffices. -/
def matchingTotalAux (A B : List Char) : Nat → Nat → Nat → Nat → Nat → Nat
  | 0, _, _, _, _ => 0
  | fuel + 1, alo, ahi, blo, bhi =>
    match findLongestMatch A B alo ahi blo bhi with
    | (i, j, k) =>
      if k = 0 then 0
      else k + matchingTotalAux A B fuel alo i blo j
             + matchingTotalAux A B fuel (i + k) ahi (j + k) bhi

/-- `SequenceMatcher(None, a, b).ratio()` as an exact rational:
`2 * M / (len(a) + len(b))`, and `1` when both are empty. -/
def pyRatio (a b : List Char) : ℚ :=
  let total := a.length + b.length
  if total = 0 then 1
  else 2 * ((matchingTotalAux a b (total + 1) 0 a.length 0 b.length : Nat) : ℚ) / (total : ℚ)

/-! ## Configuration (`config/settings.py`) -/

/-- Expert contact record.  Product experts have no `title`/`specialties`
keys; overall experts do.  The optional fields model key presence, which
`format_expert_contact` tests with `'title' in expert_info`. -/
structure Expert where
  name : String
  email : String
  phone : String
  title : Option String := none
  specialties : Option (List String) := none
deriving DecidableEq, Repr

/-- Entry of the `IOT_PRODUCTS` configuration list. -/
structure Product where
  name : String
  description : String
  expert : Expert
deriving DecidableEq, Repr

/-- `IOT_PRODUCTS` from `config/settings.py`. -/
def IOT_PRODUCTS : List Product :=
  [ { name := "Smart Home Hub",
      description := "Central control unit for smart home devices",
      expert := { name := "John Smith", email := "john.smith@company.com",
                  phone := "+1-555-0101" } },
    { name := "Security Camera System",
      description := "Wireless security camera with AI detection",
      expert := { name := "Sarah Johnson", email := "sarah.johnson@company.com",
                  phone := "+1-555-0102" } },
    { name := "Smart Thermostat",
      description := "AI-powered temperature control system",
      expert := { name := "Mike Chen", email := "mike.chen@company.com",
                  phone := "+1-555-0103" } },
    { name := "Smart Lighting System",
      description := "Automated lighting control with voice commands",
      expert := { name := "Lisa Wang", email := "lisa.wang@company.com",
                  phone := "+1-555-0104" } } ]

/-- `OVERALL_EXPERTS` from `config/settings.py`. -/
def OVERALL_EXPERTS : List Expert :=
  [ { name := "Dr. Emily Rodriguez", title := some "Senior IOT Technical Lead",
      email := "emily.rodriguez@company.com", phone := "+1-555-0201",
      specialties := some ["All IOT Products", "System Integration", "Technical Architecture"] },
    { name := "Alex Thompson", title := some "IOT Customer Success Manager",
      email := "alex.thompson@company.com", phone := "+1-555-0202",
      specialties := some ["Customer Support", "Product Training", "Troubleshooting"] } ]

/-- `FEEDBACK_INTERVAL` default from `config/settings.py`
(`int(os.getenv('FEEDBACK_INTERVAL', 3))`). -/
def FEEDBACK_INTERVAL : Nat := 3

/-- `SESSION_TIMEOUT` from `config/settings.py`, in seconds. -/
def SESSION_TIMEOUT : Int := 3600

/-! ## `ProductRouter` (`src/product_router.py`) -/

/-- `self.product_keywords` set up in `ProductRouter.__init__`
(note: `"recording"` appears twice in the camera list, as in the source). -/
def product_keywords : List (String × List String) :=
  [ ("Smart Home Hub",
     ["hub", "central", "control", "smart home", "automation", "central unit",
      "main controller", "home automation", "smart hub", "control center"]),
    ("Security Camera System",
     ["camera", "security", "surveillance", "monitoring", "recording", "video",
      "cctv", "security camera", "surveillance system", "motion detection",
      "night vision", "recording", "footage", "monitor"]),
    ("Smart Thermostat",
     ["thermostat", "temperature", "heating", "cooling", "climate", "hvac",
      "smart thermostat", "temperature control", "heating system", "cooling system",
      "climate control", "energy saving", "temperature sensor"]),
    ("Smart Lighting System",
     ["lighting", "lights", "bulb", "lamp", "illumination", "smart lights",
      "smart lighting", "light control", "dimmer", "color", "brightness",
      "automated lighting", "voice control", "light bulb"]) ]

/-- `self.exit_commands` from `ProductRouter.__init__`. -/
def exit_commands : List String :=
  ["exit", "quit", "end", "stop", "bye", "goodbye"]

/-- English entry of `self.language_keywords`. -/
def english_keywords : List String :=
  ["english", "en", "inggris", "bahasa inggris"]

/-- Malay entry of `self.language_keywords`. -/
def malay_keywords : List String :=
  ["malay", "malaysian", "melayu", "bahasa melayu", "bm"]

/-- `ProductRouter.is_exit_command`: exact match of the lower-cased,
stripped query against the exit vocabulary. -/
def is_exit_command (query : String) : Bool :=
  exit_commands.any (fun c => pyLowerStrip query = c.data)

/-- `ProductRouter.is_language_selection`: substring match against the
language keyword sets, English first (dict iteration order), returning the
title-cased language name. -/
def is_language_selection (query : String) : Option String :=
  let query_lower := pyLowerStrip query
  if english_keywords.any (fun k => containsSub query_lower k.data) then
    some "English"
  else if malay_keywords.any (fun k => containsSub query_lower k.data) then
    some "Malay"
  else
    none

/-- The `listing_keywords` local list of `is_product_listing_request`. -/
def listing_keywords : List String :=
  ["list all products", "show all products", "what products", "available products",
   "all products", "product list", "what do you have", "what can you help with",
   "list products", "show products", "available iot", "iot products",
   "list all the products", "list all the products in your company", "what products do you have",
   "show me all products", "what are your products", "list your products",
   "company products", "your products", "all your products"]

/-- `ProductRouter.is_product_listing_request`: substring match against the
listing vocabulary (lower-cased, not stripped). -/
def is_product_listing_request (query : String) : Bool :=
  listing_keywords.any (fun k => containsSub (pyLower query) k.data)

/-- `ProductRouter.calculate_similarity`: 0.7 times the fraction of keywords
occurring literally in the lower-cased query, plus 0.3 times the maximum
`SequenceMatcher` ratio between the query and a single keyword. -/
def calculate_similarity (query : String) (keywords : List String) : ℚ :=
  let query_lower := pyLower query
  let exact_matches : Nat := (keywords.filter (fun k => containsSub query_lower k.data)).length
  let similarities : List ℚ := keywords.map (fun k => pyRatio query_lower k.data)
  let exact_score : ℚ := if keywords.length = 0 then 0 else (exact_matches : ℚ) / (keywords.length : ℚ)
  let similarity_score : ℚ :=
    match similarities with
    | [] => 0
    | s :: rest => rest.foldl max s
  exact_score * (0.7 : ℚ) + similarity_score * (0.3 : ℚ)

/-- `ProductRouter.route_query_to_product`: listing requests short-circuit
with `(none, 1.0)`; otherwise keep the strictly-best-scoring product in
declaration order and apply the `0.1` confidence threshold. -/
def route_query_to_product (query : String) : Option String × ℚ :=
  if is_product_listing_request query then (none, 1)
  else
    let best :=
      product_keywords.foldl
        (fun acc p =>
          let similarity_score := calculate_similarity query p.2
          if acc.2 < similarity_score then (some p.1, similarity_score) else acc)
        (none, 0)
    if best.2 < (0.1 : ℚ) then (none, best.2) else best

/-- `ProductRouter.get_expert_contact` (same body as
`FeedbackManager.get_expert_contact`): product-specific expert when the name
matches a configured product, else the first overall expert, else `none`. -/
def get_expert_contact (product_name : Option String) : Option Expert :=
  let from_product : Option Expert :=
    match product_name with
    | some n => (IOT_PRODUCTS.find? (fun p => p.name == n)).map Product.expert
    | none => none
  match from_product with
  | some e => some e
  | none =>
    match OVERALL_EXPERTS with
    | e :: _ => some e
    | [] => none

/-- Result dictionary of `ProductRouter.analyze_query_intent`. -/
structure QueryAnalysis where
  is_exit : Bool := false
  is_language_selection : Bool := false
  selected_language : Option String := none
  is_product_listing : Bool := false
  routed_product : Option String := none
  confidence_score : ℚ := 0
  expert_contact : Option Expert := none
deriving DecidableEq, Repr

/-- `ProductRouter.analyze_query_intent`: exit, then language selection,
then product listing, then product routing (with expert lookup). -/
def analyze_query_intent (query : String) : QueryAnalysis :=
  if is_exit_command query then
    { is_exit := true }
  else
    match is_language_selection query with
    | some lang =>
      { is_language_selection := true, selected_language := some lang }
    | none =>
      if is_product_listing_request query then
        { is_product_listing := true }
      else
        match route_query_to_product query with
        | (routed_product, confidence) =>
          { routed_product := routed_product,
            confidence_score := confidence,
            expert_contact :=
              match routed_product with
              | some p => get_expert_contact (some p)
              | none => none }

/-! ## `SessionManager` (`src/session_manager.py`)

The three module-level dictionaries (`active_sessions`, `session_counters`,
`feedback_shown`) are modelled as association lists with Python-dict
semantics: assignment replaces the first binding in place, otherwise
appends; `del` removes the binding; lookup returns the first binding. -/

/-- Dictionary lookup `m.get(k)` / `m[k]`. -/
def lookup {α : Type} : List (String × α) → String → Option α
  | [], _ => none
  | (k', v) :: t, k => if k' = k then some v else lookup t k

/-- Dictionary assignment `m[k] = v`. -/
def setk {α : Type} : List (String × α) → String → α → List (String × α)
  | [], k, v => [(k, v)]
  | (k', v') :: t, k, v => if k' = k then (k, v) :: t else (k', v') :: setk t k v

/-- Dictionary deletion `del m[k]`. -/
def delk {α : Type} : List (String × α) → String → List (String × α)
  | [], _ => []
  | (k', v) :: t, k => if k' = k then delk t k else (k', v) :: delk t k

/-- One value of `self.active_sessions`: the per-session record built by
`create_session`.  Timestamps are seconds. -/
structure SessionInfo where
  email : String
  phone : String
  language : String
  created_at : Int
  last_activity : Int
  question_count : Nat
  product_involved : Option String
  expert_contacted : Bool
deriving DecidableEq, Repr

/-- The in-memory state of a `SessionManager` instance. -/
structure SMState where
  active_sessions : List (String × SessionInfo)
  session_counters : List (String × Nat)
  feedback_shown : List (String × Bool)
deriving DecidableEq, Repr

/-- The freshly constructed `SessionManager` (empty dictionaries). -/
def SMState.empty : SMState :=
  { active_sessions := [], session_counters := [], feedback_shown := [] }

/-- `SessionManager.create_session`.  The generated `uuid4` is the explicit
`session_id` argument; `db_manager.get_user_id` and
`db_manager.create_session` outcomes are the explicit `db_user_id` and
`db_create_ok` inputs.  Returns the session ID (or `none` on failure)
together with the new state. -/
def create_session (s : SMState) (session_id email phone language : String)
    (now : Int) (db_user_id : Option Nat) (db_create_ok : Bool) :
    Option String × SMState :=
  match db_user_id with
  | none => (none, s)
  | some _ =>
    if db_create_ok then
      (some session_id,
       { active_sessions :=
           setk s.active_sessions session_id
             { email := email, phone := phone, language := language,
               created_at := now, last_activity := now, question_count := 0,
               product_involved := none, expert_contacted := false },
         session_counters := setk s.session_counters session_id 0,
         feedback_shown := setk s.feedback_shown session_id false })
    else
      (none, s)

/-- `SessionManager.get_session_info`: a copy of the live record with
`question_count` refreshed from `session_counters`. -/
def get_session_info (s : SMState) (session_id : String) : Option SessionInfo :=
  match lookup s.active_sessions session_id with
  | some info =>
    some { info with question_count := (lookup s.session_counters session_id).getD 0 }
  | none => none

/-- `SessionManager.update_session_activity`: refresh `last_activity`;
silently does nothing when the session is absent. -/
def update_session_activity (s : SMState) (session_id : String) (now : Int) : SMState :=
  match lookup s.active_sessions session_id with
  | some info =>
    { s with
      active_sessions :=
        setk s.active_sessions session_id ({ info with last_activity := now }) }
  | none => s

/-- `SessionManager.increment_question_count`: bump the counter (creating it
at 1 when absent), mirror the count into the live record if present, and
return the new count. -/
def increment_question_count (s : SMState) (session_id : String) : Nat × SMState :=
  let new_count := (lookup s.session_counters session_id).getD 0 + 1
  let s1 := { s with session_counters := setk s.session_counters session_id new_count }
  match lookup s1.active_sessions session_id with
  | some info =>
    (new_count,
     { s1 with
       active_sessions :=
         setk s1.active_sessions session_id ({ info with question_count := new_count }) })
  | none => (new_count, s1)

/-- `SessionManager.should_show_feedback` with the configured budget `fi`
(`FEEDBACK_INTERVAL`, default 3): true exactly when the counter has reached
the budget and feedback was not yet shown; a true result records
`feedback_shown[session_id] = True`. -/
def should_show_feedback (fi : Nat) (s : SMState) (session_id : String) : Bool × SMState :=
  let question_count := (lookup s.session_counters session_id).getD 0
  let feedback_already_shown := (lookup s.feedback_shown session_id).getD false
  let should_end := decide (fi ≤ question_count) && !feedback_already_shown
  if should_end then
    (true, { s with feedback_shown := setk s.feedback_shown session_id true })
  else
    (false, s)

/-- `SessionManager.should_end_session` (same logic, per the source). -/
def should_end_session (fi : Nat) (s : SMState) (session_id : String) : Bool × SMState :=
  should_show_feedback fi s session_id

/-- `SessionManager.end_session`: when the session is live, drop the record
and its counter and feedback-flag entries; otherwise do nothing. -/
def end_session (s : SMState) (session_id : String) : SMState :=
  match lookup s.active_sessions session_id with
  | some _ =>
    { active_sessions := delk s.active_sessions session_id,
      session_counters := delk s.session_counters session_id,
      feedback_shown := delk s.feedback_shown session_id }
  | none => s

/-- `SessionManager.reset_feedback_flag` ("for testing purposes"): reset the
flag to `False` when an entry exists. -/
def reset_feedback_flag (s : SMState) (session_id : String) : SMState :=
  match lookup s.feedback_shown session_id with
  | some _ => { s with feedback_shown := setk s.feedback_shown session_id false }
  | none => s

/-- `SessionManager.update_session_product`. -/
def update_session_product (s : SMState) (session_id product_name : String) : SMState :=
  match lookup s.active_sessions session_id with
  | some info =>
    { s with
      active_sessions :=
        setk s.active_sessions session_id ({ info with product_involved := some product_name }) }
  | none => s

/-- `SessionManager.mark_expert_contacted`. -/
def mark_expert_contacted (s : SMState) (session_id : String) : SMState :=
  match lookup s.active_sessions session_id with
  | some info =>
    { s with
      active_sessions :=
        setk s.active_sessions session_id ({ info with expert_contacted := true }) }
  | none => s

/-- `SessionManager.is_session_active` with timeout `T` (`SESSION_TIMEOUT`)
at time `now`: absent sessions are inactive; a session whose
`last_activity` predates `now - T` is ended on the spot (lazy expiry). -/
def is_session_active (T : Int) (s : SMState) (session_id : String) (now : Int) :
    Bool × SMState :=
  match lookup s.active_sessions session_id with
  | none => (false, s)
  | some info =>
    if info.last_activity < now - T then (false, end_session s session_id)
    else (true, s)

/-- `SessionManager.cleanup_expired_sessions`: collect the IDs whose
`last_activity` predates `now - T`, then end each of them. -/
def cleanup_expired_sessions (T : Int) (s : SMState) (now : Int) : SMState :=
  let expired_sessions :=
    (s.active_sessions.filter (fun e => e.2.last_activity < now - T)).map Prod.fst
  expired_sessions.foldl (fun st session_id => end_session st session_id) s

/-! ## `FeedbackManager` (`src/feedback_manager.py`) -/

/-- One entry of `self.feedback_templates` (English and Malay variants). -/
structure FeedbackTemplate where
  title : String
  message : String
  icon : String
  title_malay : String
  message_malay : String
deriving DecidableEq, Repr

/-- The template actually handed to the UI by `get_feedback_template`. -/
structure DisplayTemplate where
  title : String
  message : String
  icon : String
deriving DecidableEq, Repr

/-- `feedback_templates["satisfied"]`. -/
def satisfied_template : FeedbackTemplate :=
  { title := "Thank you for your feedback!",
    message := "We're glad we could help you with your IOT product questions. If you need further assistance, feel free to contact our product expert.",
    icon := "✅",
    title_malay := "Terima kasih atas maklum balas anda!",
    message_malay := "Kami gembira dapat membantu anda dengan soalan produk IOT anda. Jika anda memerlukan bantuan lanjut, sila hubungi pakar produk kami." }

/-- `feedback_templates["unsatisfied"]`. -/
def unsatisfied_template : FeedbackTemplate :=
  { title := "We're sorry to hear that",
    message := "Let us connect you with our product expert for better assistance.",
    icon := "❌",
    title_malay := "Kami sedih mendengarnya",
    message_malay := "Mari kami hubungkan anda dengan pakar produk kami untuk bantuan yang lebih baik." }

/-- `feedback_templates["skipped"]`. -/
def skipped_template : FeedbackTemplate :=
  { title := "Session completed",
    message := "Thank you for using our IOT Product Support Chatbot. We hope we were able to help you!",
    icon := "⏭️",
    title_malay := "Sesi selesai",
    message_malay := "Terima kasih kerana menggunakan Chatbot Sokongan Produk IOT kami. Kami berharap kami dapat membantu anda!" }

/-- The language-specific projection used by `get_feedback_template`. -/
def FeedbackTemplate.display (t : FeedbackTemplate) (language : String) : DisplayTemplate :=
  if language = "Malay" then
    { title := t.title_malay, message := t.message_malay, icon := t.icon }
  else
    { title := t.title, message := t.message, icon := t.icon }

/-- `FeedbackManager.get_feedback_template`: pick the template of the given
rating in the session language, or the generic fallback for an unknown
rating. -/
def get_feedback_template (satisfaction_rating language : String) : DisplayTemplate :=
  if satisfaction_rating = "satisfied" then satisfied_template.display language
  else if satisfaction_rating = "unsatisfied" then unsatisfied_template.display language
  else if satisfaction_rating = "skipped" then skipped_template.display language
  else if language = "Malay" then
    { title := "Terima kasih atas maklum balas anda!",
      message := "Kami menghargai input anda.",
      icon := "📝" }
  else
    { title := "Thank you for your feedback!",
      message := "We appreciate your input.",
      icon := "📝" }

/-- `FeedbackManager.format_expert_contact` (the `.strip()`-ed f-string):
the overall-expert layout when the record has `title` and `specialties`
keys, the product-expert layout otherwise. -/
def format_expert_contact (e : Expert) : String :=
  match e.title, e.specialties with
  | some t, some sp =>
    "**Overall IOT Expert Contact Information:**\n\n👤 **Name:** " ++ e.name ++
    "\n🏷️ **Title:** " ++ t ++ "\n📧 **Email:** " ++ e.email ++
    "\n📞 **Phone:** " ++ e.phone ++ "\n🎯 **Specialties:** " ++
    String.intercalate ", " sp ++
    "\n\nFeel free to contact our expert for comprehensive IOT support!"
  | _, _ =>
    "**Product Expert Contact Information:**\n\n👤 **Name:** " ++ e.name ++
    "\n📧 **Email:** " ++ e.email ++ "\n📞 **Phone:** " ++ e.phone ++
    "\n\nFeel free to contact our expert for detailed technical support!"

/-- Combined state of the feedback manager: the shared `session_manager`
state plus the durable `feedback` table (a list of
`(session_id, satisfaction_rating)` rows, in insertion order). -/
structure FMState where
  sm : SMState
  feedback_rows : List (String × String)
deriving DecidableEq, Repr

/-- `FeedbackManager.save_feedback`.  `db_ok` is the outcome of
`db_manager.save_feedback` (row insertion); on success the row holds the
normalized rating and, for "unsatisfied", the session is marked
expert-contacted. -/
def save_feedback (db_ok : Bool) (st : FMState) (session_id satisfaction_rating : String) :
    Bool × FMState :=
  let rating := if satisfaction_rating = "skipped" then "unsatisfied" else satisfaction_rating
  if rating ≠ "satisfied" ∧ rating ≠ "unsatisfied" then (false, st)
  else if db_ok then
    let st1 := { st with feedback_rows := st.feedback_rows ++ [(session_id, rating)] }
    let st2 :=
      if rating = "unsatisfied" then { st1 with sm := mark_expert_contacted st1.sm session_id }
      else st1
    (true, st2)
  else (false, st)

/-- `FeedbackManager.get_session_product`. -/
def get_session_product (s : SMState) (session_id : String) : Option String :=
  match get_session_info s session_id with
  | some info => info.product_involved
  | none => none

/-- Result dictionary of `FeedbackManager.process_feedback_response`. -/
structure FeedbackResponse where
  success : Bool
  template : DisplayTemplate
  expert_contact : Option String
  show_expert_contact : Bool
  product_name : Option String
deriving DecidableEq, Repr

/-- `FeedbackManager.process_feedback_response`: resolve the expert, save
the normalized rating, and build the display payload with the template of
the *original* rating in the session language. -/
def process_feedback_response (db_ok : Bool) (st : FMState)
    (session_id satisfaction_rating : String) : FeedbackResponse × FMState :=
  let product_name := get_session_product st.sm session_id
  let expert_info := get_expert_contact product_name
  let original_rating := satisfaction_rating
  let rating := if satisfaction_rating = "skipped" then "unsatisfied" else satisfaction_rating
  match save_feedback db_ok st session_id rating with
  | (feedback_saved, st1) =>
    let session_language :=
      match get_session_info st1.sm session_id with
      | some info => info.language
      | none => "English"
    let template := get_feedback_template original_rating session_language
    ({ success := feedback_saved,
       template := template,
       expert_contact := expert_info.map format_expert_contact,
       show_expert_contact := expert_info.isSome,
       product_name := product_name },
     st1)

/-- `FeedbackManager.validate_feedback_rating`. -/
def validate_feedback_rating (rating : String) : Bool :=
  (pyLower rating) = "satisfied".data ∨ (pyLower rating) = "unsatisfied".data

/-! ## Operation traces

`GateOp` is the language of C1: calls to the feedback gate
(`should_show_feedback` / `should_end_session`) interleaved with
`increment_question_count` calls for one fixed session.  `SMOp` enumerates
the mutating operations exposed by `SessionManager` (the only writers of
the three dictionaries), used to state the flag-monotonicity invariant. -/

/-- One step of a C1 trace for a fixed session. -/
inductive GateOp where
  | gate
  | incr
deriving DecidableEq, Repr

/-- Run a trace of gate calls and increments for session `session_id`,
collecting the boolean returned by each gate call. -/
def runOps (fi : Nat) (session_id : String) : SMState → List GateOp → SMState × List Bool
  | s, [] => (s, [])
  | s, GateOp.gate :: rest =>
    match should_show_feedback fi s session_id with
    | (b, s1) =>
      match runOps fi session_id s1 rest with
      | (sf, bs) => (sf, b :: bs)
  | s, GateOp.incr :: rest =>
    runOps fi session_id (increment_question_count s session_id).2 rest

/-- The mutating operations exposed by `SessionManager`, each carrying its
target session and time arguments.  (`create_session` is absent: it only
ever writes a freshly generated UUID, never an existing live session.) -/
inductive SMOp where
  | incr (id : String)
  | gate (fi : Nat) (id : String)
  | touch (id : String) (now : Int)
  | isActive (T : Int) (id : String) (now : Int)
  | cleanup (T : Int) (now : Int)
  | markExpert (id : String)
  | setProduct (id : String) (p : String)
  | endS (id : String)
  | resetFlag (id : String)
deriving DecidableEq, Repr

/-- State effect of each `SMOp`. -/
def applySMOp : SMOp → SMState → SMState
  | .incr id, s => (increment_question_count s id).2
  | .gate fi id, s => (should_show_feedback fi s id).2
  | .touch id now, s => update_session_activity s id now
  | .isActive T id now, s => (is_session_active T s id now).2
  | .cleanup T now, s => cleanup_expired_sessions T s now
  | .markExpert id, s => mark_expert_contacted s id
  | .setProduct id p, s => update_session_product s id p
  | .endS id, s => end_session s id
  | .resetFlag id, s => reset_feedback_flag s id

/-! ## Derived definitions used by the specifications -/

/-- The question count the gate reads (`session_counters.get(id, 0)`). -/
def qCount (s : SMState) (session_id : String) : Nat :=
  (lookup s.session_counters session_id).getD 0

/-- The feedback flag the gate reads (`feedback_shown.get(id, False)`). -/
def shownFlag (s : SMState) (session_id : String) : Bool :=
  (lookup s.feedback_shown session_id).getD false

/-- The selection step of `route_query_to_product`, abstracted over the
name and score of a candidate. -/
def selStep {α : Type} (nm : α → String) (sc : α → ℚ)
    (acc : Option String × ℚ) (x : α) : Option String × ℚ :=
  if acc.2 < sc x then (some (nm x), sc x) else acc

/-- The running-maximum step. -/
def maxStep {α : Type} (sc : α → ℚ) (m : ℚ) (x : α) : ℚ :=
  max m (sc x)

/-- The score `route_query_to_product` computes for one configured product. -/
def productScore (query : String) (p : String × List String) : ℚ :=
  calculate_similarity query p.2

/-- The best score over all configured products (the running maximum the
routing loop maintains, started at `0.0`). -/
def bestScore (query : String) : ℚ :=
  product_keywords.foldl (maxStep (productScore query)) 0

/-! ## Concrete demonstration states -/

/-- A session `"s1"` freshly created at time 0 (both durable-store calls
succeed). -/
def demo_state0 : SMState :=
  (create_session SMState.empty "s1" "user@example.com" "0123456789" "English" 0 (some 1) true).2

/-- `demo_state0` after three `increment_question_count` calls. -/
def demo_state3 : SMState :=
  (increment_question_count
    (increment_question_count
      (increment_question_count demo_state0 "s1").2 "s1").2 "s1").2

/-- `demo_state3` after the feedback gate fired once: the flag is true and
the session is still live. -/
def demo_state_flag : SMState :=
  (should_show_feedback FEEDBACK_INTERVAL demo_state3 "s1").2

/-- Two live sessions with different idle times: `"old"` was last active at
time 0, `"new"` at time 1000000. -/
def demo_state_two : SMState :=
  (create_session
    (create_session SMState.empty "old" "a@x.com" "1" "English" 0 (some 1) true).2
    "new" "b@x.com" "2" "Malay" 1000000 (some 2) true).2

/-- A feedback-manager state over `demo_state3` with an empty feedback
table. -/
def demo_fm : FMState :=
  { sm := demo_state3, feedback_rows := [] }

/-! ## Dictionary lemmas -/

theorem lookup_setk_self {α : Type} (m : List (String × α)) (k : String) (v : α) :
    lookup (setk m k v) k = some v := by
  induction m with
  | nil => simp [setk, lookup]
  | cons e t ih =>
    match e with
    | (k', v') =>
      by_cases h : k' = k
      · simp [setk, lookup, h]
      · simp [setk, lookup, h, ih]

theorem lookup_setk_ne {α : Type} (m : List (String × α)) {k' k : String} (v : α)
    (h : k' ≠ k) : lookup (setk m k' v) k = lookup m k := by
  induction m with
  | nil => simp [setk, lookup, h]
  | cons e t ih =>
    match e with
    | (k'', v'') =>
      by_cases h2 : k'' = k'
      · simp [setk, lookup, h2, h]
      · simp [setk, lookup, h2, ih]

theorem lookup_delk_self {α : Type} (m : List (String × α)) (k : String) :
    lookup (delk m k) k = none := by
  induction m with
  | nil => simp [delk, lookup]
  | cons e t ih =>
    match e with
    | (k', v') =>
      by_cases h : k' = k
      · simpa [delk, h] using ih
      · simpa [delk, lookup, h] using ih

theorem lookup_delk_ne {α : Type} (m : List (String × α)) {k' k : String}
    (h : k' ≠ k) : lookup (delk m k') k = lookup m k := by
  induction m with
  | nil => simp [delk, lookup]
  | cons e t ih =>
    match e with
    | (k'', v'') =>
      by_cases h2 : k'' = k'
      · subst h2
        simpa [delk, lookup, h] using ih
      · by_cases h3 : k'' = k
        · simp [delk, lookup, h2, h3, Ne.symm h]
        · simp [delk, lookup, h2, h3, ih]

/-! ## Feedback-gate lemmas (towards C1 and C3) -/

theorem should_show_feedback_fst (fi : Nat) (s : SMState) (id : String) :
    (should_show_feedback fi s id).1
      = (decide (fi ≤ qCount s id) && !(shownFlag s id)) := by
  by_cases h : (decide (fi ≤ qCount s id) && !(shownFlag s id)) = true
  · simp only [should_show_feedback, qCount, shownFlag] at h ⊢
    simp [h]
  · simp only [should_show_feedback, qCount, shownFlag] at h ⊢
    simp [h]

theorem should_show_feedback_shown_after (fi : Nat) (s : SMState) (id : String) :
    shownFlag (should_show_feedback fi s id).2 id
      = (shownFlag s id || (should_show_feedback fi s id).1) := by
  by_cases h : (decide (fi ≤ qCount s id) && !(shownFlag s id)) = true
  · simp only [should_show_feedback, qCount, shownFlag] at h ⊢
    simp [h, lookup_setk_self]
  · simp only [should_show_feedback, qCount, shownFlag] at h ⊢
    simp [h]

theorem should_show_feedback_of_shown (fi : Nat) (s : SMState) (id : String)
    (h : shownFlag s id = true) :
    should_show_feedback fi s id = (false, s) := by
  simp only [shownFlag] at h
  simp [should_show_feedback, h]

theorem increment_feedback_shown (s : SMState) (id : String) :
    ((increment_question_count s id).2).feedback_shown = s.feedback_shown := by
  cases h : lookup s.active_sessions id <;>
    simp [increment_question_count, h]

/-- Once the flag is read as true, an entire trace of gate calls and
increments returns `false` on every gate call and keeps the flag true. -/
theorem runOps_all_false (fi : Nat) (id : String) (ops : List GateOp) :
    ∀ s : SMState, shownFlag s id = true →
      ((runOps fi id s ops).2.count true = 0 ∧
       shownFlag (runOps fi id s ops).1 id = true) := by
  induction ops with
  | nil => intro s h; simp [runOps, h]
  | cons op rest ih =>
    intro s h
    cases op with
    | gate =>
      have hg := should_show_feedback_of_shown fi s id h
      have : runOps fi id s (GateOp.gate :: rest)
          = ((runOps fi id s rest).1, false :: (runOps fi id s rest).2) := by
        simp [runOps, hg]
      rw [this]
      have := ih s h
      simpa using this
    | incr =>
      have hsame : shownFlag ((increment_question_count s id).2) id = shownFlag s id := by
        unfold shownFlag
        rw [increment_feedback_shown]
      have := ih ((increment_question_count s id).2) (by rw [hsame]; exact h)
      simpa [runOps] using this

/-- At most one gate call in any trace returns true. -/
theorem runOps_at_most_one (fi : Nat) (id : String) (ops : List GateOp) :
    ∀ s : SMState, ((runOps fi id s ops).2.count true) ≤ 1 := by
  induction ops with
  | nil => intro s; simp [runOps]
  | cons op rest ih =>
    intro s
    cases op with
    | gate =>
      rcases hg : should_show_feedback fi s id with ⟨b, s1⟩
      have hrun : runOps fi id s (GateOp.gate :: rest)
          = ((runOps fi id s1 rest).1, b :: (runOps fi id s1 rest).2) := by
        simp [runOps, hg]
      rw [hrun]
      cases b with
      | false => simpa using ih s1
      | true =>
        have hshown : shownFlag s1 id = true := by
          have := should_show_feedback_shown_after fi s id
          rw [hg] at this
          simpa using this
        have hzero := (runOps_all_false fi id rest s1 hshown).1
        simp [List.count_cons, hzero]
    | incr =>
      simpa [runOps] using ih ((increment_question_count s id).2)

/-! ## Flag-monotonicity lemmas (towards C3) -/

theorem update_session_activity_feedback (s : SMState) (id : String) (now : Int) :
    (update_session_activity s id now).feedback_shown = s.feedback_shown := by
  cases h : lookup s.active_sessions id <;> simp [update_session_activity, h]

theorem mark_expert_contacted_feedback (s : SMState) (id : String) :
    (mark_expert_contacted s id).feedback_shown = s.feedback_shown := by
  cases h : lookup s.active_sessions id <;> simp [mark_expert_contacted, h]

theorem update_session_product_feedback (s : SMState) (id p : String) :
    (update_session_product s id p).feedback_shown = s.feedback_shown := by
  cases h : lookup s.active_sessions id <;> simp [update_session_product, h]

theorem should_show_feedback_snd_feedback (fi : Nat) (s : SMState) (id : String) :
    ((should_show_feedback fi s id).2).feedback_shown = s.feedback_shown ∨
    ((should_show_feedback fi s id).2).feedback_shown = setk s.feedback_shown id true := by
  by_cases h : (decide (fi ≤ (lookup s.session_counters id).getD 0)
      && !((lookup s.feedback_shown id).getD false)) = true
  · right; simp [should_show_feedback, h]
  · left; simp [should_show_feedback, h]

theorem is_session_active_snd (T : Int) (s : SMState) (id : String) (now : Int) :
    (is_session_active T s id now).2 = s ∨
    (is_session_active T s id now).2 = end_session s id := by
  cases h : lookup s.active_sessions id with
  | none => left; simp [is_session_active, h]
  | some info =>
    by_cases ht : info.last_activity < now - T
    · right; simp [is_session_active, h, ht]
    · left; simp [is_session_active, h, ht]

/-- The "flag survives or the whole session is gone" invariant, preserved by
`end_session` for any target. -/
theorem end_session_flag_invariant (s : SMState) (k id : String)
    (h : lookup s.feedback_shown id = some true ∨
         (lookup s.active_sessions id = none ∧ lookup s.feedback_shown id = none)) :
    lookup (end_session s k).feedback_shown id = some true ∨
    (lookup (end_session s k).active_sessions id = none ∧
     lookup (end_session s k).feedback_shown id = none) := by
  cases hm : lookup s.active_sessions k with
  | none => simpa [end_session, hm] using h
  | some info =>
    by_cases hk : k = id
    · subst hk
      right
      simp [end_session, hm, lookup_delk_self]
    · rcases h with h | ⟨h1, h2⟩
      · left
        simp [end_session, hm, lookup_delk_ne _ hk, h]
      · right
        simp [end_session, hm, lookup_delk_ne _ hk, h1, h2]

theorem foldl_end_session_flag_invariant (l : List String) (id : String) :
    ∀ s : SMState,
      (lookup s.feedback_shown id = some true ∨
       (lookup s.active_sessions id = none ∧ lookup s.feedback_shown id = none)) →
      lookup (l.foldl (fun st session_id => end_session st session_id) s).feedback_shown id
          = some true ∨
      (lookup (l.foldl (fun st session_id => end_session st session_id) s).active_sessions id
          = none ∧
       lookup (l.foldl (fun st session_id => end_session st session_id) s).feedback_shown id
          = none) := by
  induction l with
  | nil => intro s h; simpa using h
  | cons k rest ih =>
    intro s h
    simpa using ih (end_session s k) (end_session_flag_invariant s k id h)

/-! ## Best-product selection lemmas (towards C5)

`route_query_to_product` keeps the strictly-best score seen so far; these
lemmas characterise that fold as "first maximizer wins". -/

theorem foldl_maxStep_init {α : Type} (sc : α → ℚ) (l : List α) :
    ∀ b c : ℚ, l.foldl (maxStep sc) (max b c) = max b (l.foldl (maxStep sc) c) := by
  induction l with
  | nil => intro b c; simp
  | cons x t ih =>
    intro b c
    have : maxStep sc (max b c) x = max b (maxStep sc c x) := by
      simp [maxStep, max_assoc]
    simp only [List.foldl_cons, this, ih]

theorem le_foldl_maxStep {α : Type} (sc : α → ℚ) (l : List α) :
    ∀ b : ℚ, b ≤ l.foldl (maxStep sc) b := by
  induction l with
  | nil => intro b; simp
  | cons x t ih =>
    intro b
    calc b ≤ max b (sc x) := le_max_left _ _
    _ ≤ t.foldl (maxStep sc) (max b (sc x)) := ih _

theorem mem_le_foldl_maxStep {α : Type} (sc : α → ℚ) (l : List α) :
    ∀ b : ℚ, ∀ x ∈ l, sc x ≤ l.foldl (maxStep sc) b := by
  induction l with
  | nil => intro b x hx; cases hx
  | cons y t ih =>
    intro b x hx
    rcases List.mem_cons.mp hx with h | h
    · subst h
      calc sc x ≤ max b (sc x) := le_max_right _ _
      _ ≤ t.foldl (maxStep sc) (max b (sc x)) := le_foldl_maxStep sc t _
    · exact ih _ x h

theorem foldl_selStep_snd {α : Type} (nm : α → String) (sc : α → ℚ) (l : List α) :
    ∀ acc : Option String × ℚ,
      (l.foldl (selStep nm sc) acc).2 = l.foldl (maxStep sc) acc.2 := by
  induction l with
  | nil => intro acc; simp
  | cons x t ih =>
    intro acc
    by_cases h : acc.2 < sc x
    · have h1 : selStep nm sc acc x = (some (nm x), sc x) := by simp [selStep, h]
      have h2 : maxStep sc acc.2 x = sc x := by simp [maxStep, max_eq_right (le_of_lt h)]
      simp only [List.foldl_cons, h1, h2, ih]
    · have h1 : selStep nm sc acc x = acc := by simp [selStep, h]
      have h2 : maxStep sc acc.2 x = acc.2 := by
        simp [maxStep, max_eq_left (le_of_not_lt h)]
      simp only [List.foldl_cons, h1, h2, ih]

theorem foldl_selStep_no_update {α : Type} (nm : α → String) (sc : α → ℚ) (l : List α) :
    ∀ acc : Option String × ℚ, (∀ x ∈ l, sc x ≤ acc.2) →
      l.foldl (selStep nm sc) acc = acc := by
  induction l with
  | nil => intro acc h; simp
  | cons x t ih =>
    intro acc h
    have hx : sc x ≤ acc.2 := h x (List.mem_cons_self x t)
    have h1 : selStep nm sc acc x = acc := by simp [selStep, not_lt_of_le hx]
    simp only [List.foldl_cons, h1]
    exact ih acc (fun y hy => h y (List.mem_cons_of_mem x hy))

/-- When some element beats the initial bound, the fold returns the
first element attaining the overall maximum. -/
theorem foldl_selStep_first_max {α : Type} (nm : α → String) (sc : α → ℚ) (l : List α) :
    ∀ (o : Option String) (b : ℚ), b < l.foldl (maxStep sc) b →
      ∃ i : Fin l.length,
        (l.foldl (selStep nm sc) (o, b)).1 = some (nm (l.get i)) ∧
        sc (l.get i) = l.foldl (maxStep sc) b ∧
        ∀ j : Fin l.length, (j : Nat) < (i : Nat) →
          sc (l.get j) < l.foldl (maxStep sc) b := by
  induction l with
  | nil => intro o b h; simp at h
  | cons x t ih =>
    intro o b hlt
    have hM : (x :: t).foldl (maxStep sc) b = t.foldl (maxStep sc) (max b (sc x)) := by
      simp [maxStep]
    by_cases hx : b < sc x
    · have hmax : max b (sc x) = sc x := max_eq_right (le_of_lt hx)
      have hMx : (x :: t).foldl (maxStep sc) b = t.foldl (maxStep sc) (sc x) := by
        rw [hM, hmax]
      have hstep : selStep nm sc (o, b) x = (some (nm x), sc x) := by simp [selStep, hx]
      by_cases hM2 : t.foldl (maxStep sc) (sc x) ≤ sc x
      · -- the head already attains the maximum
        have hMeq : t.foldl (maxStep sc) (sc x) = sc x :=
          le_antisymm hM2 (le_foldl_maxStep sc t _)
        have hall : ∀ y ∈ t, sc y ≤ sc x := by
          intro y hy
          have := mem_le_foldl_maxStep sc t (sc x) y hy
          rw [hMeq] at this
          exact this
        refine ⟨⟨0, by simp⟩, ?_, ?_, ?_⟩
        · simp only [List.foldl_cons, hstep]
          rw [foldl_selStep_no_update nm sc t (some (nm x), sc x) hall]
          simp
        · simp [hMx, hMeq]
        · intro j hj
          simp at hj
      · -- some later element strictly beats the head
        have hlt2 : sc x < t.foldl (maxStep sc) (sc x) := lt_of_not_le hM2
        rcases ih (some (nm x)) (sc x) hlt2 with ⟨i', h1, h2, h3⟩
        refine ⟨⟨(i' : Nat) + 1, by simpa using i'.isLt⟩, ?_, ?_, ?_⟩
        · simp only [List.foldl_cons, hstep]
          simpa [hMx] using h1
        · simpa [hMx] using h2
        · intro j hj
          rcases j with ⟨jn, hjn⟩
          cases jn with
          | zero =>
            simpa [hMx] using hlt2
          | succ m =>
            have hm : m < (i' : Nat) := by simpa using hj
            have := h3 ⟨m, by simpa using hjn⟩ (by simpa using hm)
            simpa [hMx] using this
    · have hle : sc x ≤ b := le_of_not_lt hx
      have hmax : max b (sc x) = b := max_eq_left hle
      have hMb : (x :: t).foldl (maxStep sc) b = t.foldl (maxStep sc) b := by
        rw [hM, hmax]
      have hstep : selStep nm sc (o, b) x = (o, b) := by simp [selStep, hx]
      have hlt2 : b < t.foldl (maxStep sc) b := by rw [hMb] at hlt; exact hlt
      rcases ih o b hlt2 with ⟨i', h1, h2, h3⟩
      refine ⟨⟨(i' : Nat) + 1, by simpa using i'.isLt⟩, ?_, ?_, ?_⟩
      · simp only [List.foldl_cons, hstep]
        simpa [hMb] using h1
      · simpa [hMb] using h2
      · intro j hj
        rcases j with ⟨jn, hjn⟩
        cases jn with
        | zero =>
          have := lt_of_le_of_lt hle hlt2
          simpa [hMb] using this
        | succ m =>
          have hm : m < (i' : Nat) := by simpa using hj
          have := h3 ⟨m, by simpa using hjn⟩ (by simpa using hm)
          simpa [hMb] using this

theorem route_query_eq_threshold (query : String)
    (h : is_product_listing_request query = false) :
    route_query_to_product query =
      (if (product_keywords.foldl (selStep Prod.fst (productScore query)) (none, (0 : ℚ))).2
          < (0.1 : ℚ) then
        (none, (product_keywords.foldl (selStep Prod.fst (productScore query)) (none, (0 : ℚ))).2)
      else
        product_keywords.foldl (selStep Prod.fst (productScore query)) (none, (0 : ℚ))) := by
  simp only [route_query_to_product, h, Bool.false_eq_true, if_false]
  rfl

/-! ## Expiry lemmas (towards C6) -/

theorem lookup_eq_some_of_mem_nodup {α : Type} (m : List (String × α)) (k : String) (v : α)
    (hnd : (m.map Prod.fst).Nodup) (hm : (k, v) ∈ m) :
    lookup m k = some v := by
  induction m with
  | nil => cases hm
  | cons e t ih =>
    match e with
    | (k', v') =>
      have hnd2 : k' ∉ t.map Prod.fst ∧ (t.map Prod.fst).Nodup := by
        simpa using hnd
      rcases List.mem_cons.mp hm with h | h
      · rw [Prod.mk.injEq] at h
        simp [lookup, h.1, h.2]
      · have hne : k' ≠ k := by
          intro he
          subst he
          exact hnd2.1 (List.mem_map.mpr ⟨(k', v), h, rfl⟩)
        simp only [lookup, hne, if_false]
        exact ih hnd2.2 h

theorem mem_of_lookup_eq_some {α : Type} (m : List (String × α)) (k : String) (v : α)
    (h : lookup m k = some v) : (k, v) ∈ m := by
  induction m with
  | nil => simp [lookup] at h
  | cons e t ih =>
    match e with
    | (k', v') =>
      by_cases hk : k' = k
      · subst hk
        simp [lookup] at h
        subst h
        exact List.mem_cons_self _ _
      · simp only [lookup, hk, if_false] at h
        exact List.mem_cons_of_mem _ (ih h)

theorem end_session_active_self (s : SMState) (id : String) :
    lookup (end_session s id).active_sessions id = none := by
  cases h : lookup s.active_sessions id with
  | none => simpa [end_session, h] using h
  | some info => simp [end_session, h, lookup_delk_self]

theorem end_session_of_lookup_some (s : SMState) (id : String) (info : SessionInfo)
    (h : lookup s.active_sessions id = some info) :
    end_session s id =
      { active_sessions := delk s.active_sessions id,
        session_counters := delk s.session_counters id,
        feedback_shown := delk s.feedback_shown id } := by
  simp [end_session, h]

theorem end_session_preserves_other (s : SMState) (k id : String) (hk : k ≠ id) :
    lookup (end_session s k).active_sessions id = lookup s.active_sessions id ∧
    lookup (end_session s k).session_counters id = lookup s.session_counters id ∧
    lookup (end_session s k).feedback_shown id = lookup s.feedback_shown id := by
  cases h : lookup s.active_sessions k with
  | none => simp [end_session, h]
  | some info => simp [end_session, h, lookup_delk_ne _ hk]

theorem end_session_active_none_mono (s : SMState) (k id : String)
    (h : lookup s.active_sessions id = none) :
    lookup (end_session s k).active_sessions id = none := by
  cases hm : lookup s.active_sessions k with
  | none => simpa [end_session, hm] using h
  | some info =>
    by_cases hk : k = id
    · subst hk
      simp [end_session, hm, lookup_delk_self]
    · simp [end_session, hm, lookup_delk_ne _ hk, h]

theorem foldl_end_session_not_mem (l : List String) (id : String) (hid : id ∉ l) :
    ∀ s : SMState,
      lookup (l.foldl (fun st session_id => end_session st session_id) s).active_sessions id
          = lookup s.active_sessions id ∧
      lookup (l.foldl (fun st session_id => end_session st session_id) s).session_counters id
          = lookup s.session_counters id ∧
      lookup (l.foldl (fun st session_id => end_session st session_id) s).feedback_shown id
          = lookup s.feedback_shown id := by
  induction l with
  | nil => intro s; simp
  | cons k rest ih =>
    intro s
    have hk : k ≠ id := by
      intro he
      exact hid (he ▸ List.mem_cons_self k rest)
    have hrest : id ∉ rest := fun hmem => hid (List.mem_cons_of_mem k hmem)
    have h1 := end_session_preserves_other s k id hk
    have h2 := ih hrest (end_session s k)
    simp only [List.foldl_cons]
    exact ⟨h2.1.trans h1.1, (h2.2.1.trans h1.2.1), (h2.2.2.trans h1.2.2)⟩

theorem foldl_end_session_active_none (l : List String) (id : String) :
    ∀ s : SMState, lookup s.active_sessions id = none →
      lookup (l.foldl (fun st session_id => end_session st session_id) s).active_sessions id
          = none := by
  induction l with
  | nil => intro s h; simpa using h
  | cons k rest ih =>
    intro s h
    simpa using ih (end_session s k) (end_session_active_none_mono s k id h)

theorem foldl_end_session_removes (l : List String) (id : String) (hid : id ∈ l) :
    ∀ s : SMState,
      lookup (l.foldl (fun st session_id => end_session st session_id) s).active_sessions id
          = none := by
  induction l with
  | nil => cases hid
  | cons k rest ih =>
    intro s
    by_cases hk : id ∈ rest
    · simpa using ih hk (end_session s k)
    · have hkid : k = id := by
        rcases List.mem_cons.mp hid with h | h
        · exact h.symm
        · exact absurd h hk
      subst hkid
      simpa using foldl_end_session_active_none rest k (end_session s k)
        (end_session_active_self s k)

/-! ## The claims -/

/-- C1 (invariants).  For every session and every finite sequence of calls
to the feedback gate (`should_show_feedback` / `should_end_session`)
interleaved with question-count increments: a gate call returns true exactly
when the question count has reached the configured budget
(`FEEDBACK_INTERVAL`, instantiated by the parameter `fi`) and the
feedback-triggered flag is still false; the call that returns true sets the
flag; and at most one call in the whole trace returns true (every call after
a flag-setting one returns false). -/
theorem claim_C1_feedback_gate_once (fi : Nat) (s : SMState) (session_id : String) :
    ((should_show_feedback fi s session_id).1
        = (decide (fi ≤ qCount s session_id) && !(shownFlag s session_id))) ∧
    (shownFlag (should_show_feedback fi s session_id).2 session_id
        = (shownFlag s session_id || (should_show_feedback fi s session_id).1)) ∧
    (∀ ops : List GateOp, ((runOps fi session_id s ops).2.count true) ≤ 1) ∧
    (∀ ops : List GateOp, shownFlag s session_id = true →
      (runOps fi session_id s ops).2.count true = 0) :=
  ⟨should_show_feedback_fst fi s session_id,
   should_show_feedback_shown_after fi s session_id,
   fun ops => runOps_at_most_one fi session_id ops s,
   fun ops h => (runOps_all_false fi session_id ops s h).1⟩

/-- Witness for C1 at the default budget 3: after three questions the gate
fires, a trace with two further gate calls reports true at most once, and a
trace started with the flag already set reports no true at all. -/
theorem claim_C1_feedback_gate_once_witness :
    ((should_show_feedback FEEDBACK_INTERVAL demo_state3 "s1").1 = true) ∧
    ((runOps FEEDBACK_INTERVAL "s1" demo_state3 [GateOp.gate, GateOp.incr, GateOp.gate]).2.count true ≤ 1) ∧
    ((runOps FEEDBACK_INTERVAL "s1" demo_state_flag [GateOp.gate, GateOp.gate]).2.count true = 0) := by
  refine ⟨?_, ?_, ?_⟩
  · have h := (claim_C1_feedback_gate_once FEEDBACK_INTERVAL demo_state3 "s1").1
    rw [h]
    decide
  · exact (claim_C1_feedback_gate_once FEEDBACK_INTERVAL demo_state3 "s1").2.2.1
      [GateOp.gate, GateOp.incr, GateOp.gate]
  · exact (claim_C1_feedback_gate_once FEEDBACK_INTERVAL demo_state_flag "s1").2.2.2
      [GateOp.gate, GateOp.gate] (by decide)

/-- C2, counterexample.  The claim "increment_question_count on an ended id
does not create a fresh counter entry or return a positive count" is false:
after ending the live session `"s1"`, `increment_question_count` returns 1
and re-creates a counter entry for the ended id. -/
theorem claim_C2_counterexample :
    (increment_question_count (end_session demo_state3 "s1") "s1").1 = 1 ∧
    lookup (increment_question_count (end_session demo_state3 "s1") "s1").2.session_counters "s1"
        = some 1 := by
  constructor <;> decide

/-- C2 as amended.  After `end_session` removes a live session:
`update_session_activity` for that id is a silent no-op (it leaves the state
unchanged and reports nothing); `get_session_info` reports not-found; but
`increment_question_count` does not fail: it returns count 1 and re-creates
a fresh counter entry for the ended id. -/
theorem claim_C2_ended_session_behaviour (s : SMState) (id : String) (now : Int)
    (info : SessionInfo) (h : lookup s.active_sessions id = some info) :
    update_session_activity (end_session s id) id now = end_session s id ∧
    get_session_info (end_session s id) id = none ∧
    (increment_question_count (end_session s id) id).1 = 1 ∧
    lookup (increment_question_count (end_session s id) id).2.session_counters id = some 1 := by
  rw [end_session_of_lookup_some s id info h]
  refine ⟨?_, ?_, ?_, ?_⟩
  · simp [update_session_activity, lookup_delk_self]
  · simp [get_session_info, lookup_delk_self]
  · simp [increment_question_count, lookup_delk_self]
  · simp [increment_question_count, lookup_delk_self, lookup_setk_self]

/-- Witness for the amended C2 on the concrete three-question session. -/
theorem claim_C2_ended_session_behaviour_witness :
    update_session_activity (end_session demo_state3 "s1") "s1" 99 = end_session demo_state3 "s1" ∧
    get_session_info (end_session demo_state3 "s1") "s1" = none ∧
    (increment_question_count (end_session demo_state3 "s1") "s1").1 = 1 ∧
    lookup (increment_question_count (end_session demo_state3 "s1") "s1").2.session_counters "s1"
        = some 1 :=
  claim_C2_ended_session_behaviour demo_state3 "s1" 99
    { email := "user@example.com", phone := "0123456789", language := "English",
      created_at := 0, last_activity := 0, question_count := 3,
      product_involved := none, expert_contacted := false } (by decide)

/-- C3, counterexample.  `reset_feedback_flag` is an operation exposed by
the session manager that sets the feedback-triggered flag back to false on a
still-live session, refuting "no operation exposed by the session manager
ever sets it back to false within the session's lifetime". -/
theorem claim_C3_counterexample :
    lookup demo_state_flag.feedback_shown "s1" = some true ∧
    (lookup demo_state_flag.active_sessions "s1").isSome = true ∧
    lookup (reset_feedback_flag demo_state_flag "s1").feedback_shown "s1" = some false ∧
    (lookup (reset_feedback_flag demo_state_flag "s1").active_sessions "s1").isSome = true := by
  refine ⟨?_, ?_, ?_, ?_⟩ <;> decide

/-- C3 as amended.  Once the feedback-triggered flag of a live session is
true, every session-manager operation except `reset_feedback_flag` for that
session (a self-described testing hook) either keeps the flag true or ends
the session's lifetime altogether (removing the record and the flag
entry). -/
theorem claim_C3_flag_monotone (op : SMOp) (s : SMState) (id : String)
    (hop : op ≠ SMOp.resetFlag id)
    (h : lookup s.feedback_shown id = some true) :
    lookup (applySMOp op s).feedback_shown id = some true ∨
    (lookup (applySMOp op s).active_sessions id = none ∧
     lookup (applySMOp op s).feedback_shown id = none) := by
  cases op with
  | incr id' =>
    left
    show lookup ((increment_question_count s id').2).feedback_shown id = some true
    rw [increment_feedback_shown]
    exact h
  | gate fi id' =>
    left
    show lookup ((should_show_feedback fi s id').2).feedback_shown id = some true
    rcases should_show_feedback_snd_feedback fi s id' with hf | hf
    · rw [hf]; exact h
    · rw [hf]
      by_cases hid : id' = id
      · subst hid
        exact lookup_setk_self _ _ _
      · rw [lookup_setk_ne _ _ hid]
        exact h
  | touch id' now =>
    left
    show lookup (update_session_activity s id' now).feedback_shown id = some true
    rw [update_session_activity_feedback]
    exact h
  | isActive T id' now =>
    have happ : applySMOp (SMOp.isActive T id' now) s = (is_session_active T s id' now).2 := rfl
    rcases is_session_active_snd T s id' now with hs | hs
    · rw [happ, hs]
      exact Or.inl h
    · rw [happ, hs]
      exact end_session_flag_invariant s id' id (Or.inl h)
  | cleanup T now =>
    exact foldl_end_session_flag_invariant _ id _ (Or.inl h)
  | markExpert id' =>
    left
    show lookup (mark_expert_contacted s id').feedback_shown id = some true
    rw [mark_expert_contacted_feedback]
    exact h
  | setProduct id' p =>
    left
    show lookup (update_session_product s id' p).feedback_shown id = some true
    rw [update_session_product_feedback]
    exact h
  | endS id' =>
    exact end_session_flag_invariant s id' id (Or.inl h)
  | resetFlag id' =>
    have hne : id' ≠ id := fun he => hop (by rw [he])
    left
    show lookup (reset_feedback_flag s id').feedback_shown id = some true
    cases hm : lookup s.feedback_shown id' with
    | none => simpa [reset_feedback_flag, hm] using h
    | some b =>
      simp only [reset_feedback_flag, hm]
      rw [lookup_setk_ne _ _ hne]
      exact h

/-- Witness for the amended C3: an increment, a gate call, a touch, an
expiry sweep that does not reach the session, and an `end_session` of
another id all keep the flag true on the concrete flagged state. -/
theorem claim_C3_flag_monotone_witness :
    (lookup (applySMOp (SMOp.incr "s1") demo_state_flag).feedback_shown "s1" = some true ∨
     (lookup (applySMOp (SMOp.incr "s1") demo_state_flag).active_sessions "s1" = none ∧
      lookup (applySMOp (SMOp.incr "s1") demo_state_flag).feedback_shown "s1" = none)) ∧
    (lookup (applySMOp (SMOp.endS "other") demo_state_flag).feedback_shown "s1" = some true ∨
     (lookup (applySMOp (SMOp.endS "other") demo_state_flag).active_sessions "s1" = none ∧
      lookup (applySMOp (SMOp.endS "other") demo_state_flag).feedback_shown "s1" = none)) :=
  ⟨claim_C3_flag_monotone (SMOp.incr "s1") demo_state_flag "s1" (by decide) (by decide),
   claim_C3_flag_monotone (SMOp.endS "other") demo_state_flag "s1" (by decide) (by decide)⟩

/-- C4, counterexample.  "bye camera" contains both the exit keyword "bye"
and the product keyword "camera", yet `analyze_query_intent` does not
classify it as exit: exit detection is an exact match of the whole input, so
the query is routed to the Security Camera System product instead. -/
theorem claim_C4_counterexample :
    analyze_query_intent "bye camera" =
      { is_exit := false, is_language_selection := false, selected_language := none,
        is_product_listing := false, routed_product := some "Security Camera System",
        confidence_score := 11/40,
        expert_contact := some { name := "Sarah Johnson",
                                 email := "sarah.johnson@company.com",
                                 phone := "+1-555-0102" } } := by
  decide

/-- C4 as amended.  `analyze_query_intent` reports exit intent exactly for
inputs whose lower-cased, stripped form equals an exit keyword, and such
inputs short-circuit before any product matching; an input that merely
contains an exit keyword (such as "bye camera") is not exit and may be
product-matched. -/
theorem claim_C4_exit_precedence (query : String) :
    ((analyze_query_intent query).is_exit = is_exit_command query) ∧
    (is_exit_command query = true →
      analyze_query_intent query =
        { is_exit := true, is_language_selection := false, selected_language := none,
          is_product_listing := false, routed_product := none, confidence_score := 0,
          expert_contact := none }) := by
  constructor
  · cases h : is_exit_command query with
    | true => simp [analyze_query_intent, h]
    | false =>
      simp only [analyze_query_intent, h, Bool.false_eq_true, if_false]
      cases hl : is_language_selection query with
      | some lang => simp
      | none =>
        by_cases hp : is_product_listing_request query
        · simp [hp]
        · simp [hp]
  · intro h
    simp [analyze_query_intent, h]

/-- Witness for the amended C4 at the exact exit command "bye". -/
theorem claim_C4_exit_precedence_witness :
    ((analyze_query_intent "bye").is_exit = is_exit_command "bye") ∧
    (analyze_query_intent "bye" =
      { is_exit := true, is_language_selection := false, selected_language := none,
        is_product_listing := false, routed_product := none, confidence_score := 0,
        expert_contact := none }) :=
  ⟨(claim_C4_exit_precedence "bye").1,
   (claim_C4_exit_precedence "bye").2 (by decide)⟩

/-- C10 (implicit).  Any input that is not an exact exit command and whose
lower-cased, stripped form contains the two-letter substring "en" (a keyword
of the English language set) is classified as a language selection resolving
to English, so it never reaches product-listing detection or product
routing. -/
theorem claim_C10_en_language_hijack (query : String)
    (h1 : is_exit_command query = false)
    (h2 : containsSub (pyLowerStrip query) "en".data = true) :
    analyze_query_intent query =
      { is_exit := false, is_language_selection := true,
        selected_language := some "English", is_product_listing := false,
        routed_product := none, confidence_score := 0, expert_contact := none } := by
  have hany : english_keywords.any (fun k => containsSub (pyLowerStrip query) k.data) = true :=
    List.any_eq_true.mpr ⟨"en", by decide, h2⟩
  have hl : is_language_selection query = some "English" := by
    simp [is_language_selection, hany]
  simp [analyze_query_intent, h1, hl]

/-- Witness for C10: "open the door" contains "en" (in "open") and is
classified as an English language selection. -/
theorem claim_C10_en_language_hijack_witness :
    analyze_query_intent "open the door" =
      { is_exit := false, is_language_selection := true,
        selected_language := some "English", is_product_listing := false,
        routed_product := none, confidence_score := 0, expert_contact := none } :=
  claim_C10_en_language_hijack "open the door" (by decide) (by decide)

/-- C9.  `get_expert_contact` returns the dedicated expert of a configured
product name, and the first-ranked overall expert otherwise (no argument or
unknown name); with the configured non-empty `OVERALL_EXPERTS` list it never
returns `none`. -/
theorem claim_C9_expert_resolution (product_name : Option String) :
    (∀ p ∈ IOT_PRODUCTS, product_name = some p.name →
      get_expert_contact product_name = some p.expert) ∧
    ((∀ p ∈ IOT_PRODUCTS, product_name ≠ some p.name) →
      get_expert_contact product_name = OVERALL_EXPERTS.head?) ∧
    (get_expert_contact product_name).isSome = true := by
  refine ⟨?_, ?_, ?_⟩
  · intro p hp he
    subst he
    fin_cases hp <;> rfl
  · intro hno
    cases product_name with
    | none => rfl
    | some n =>
      cases hf : IOT_PRODUCTS.find? (fun p => p.name == n) with
      | some p =>
        have hbeq : (p.name == n) = true := by
          have h2 := List.find?_some hf
          simpa using h2
        exact absurd (congrArg some (eq_of_beq hbeq).symm)
          (hno p (List.mem_of_find?_eq_some hf))
      | none =>
        simp [get_expert_contact, hf, OVERALL_EXPERTS]
  · cases product_name with
    | none => rfl
    | some n =>
      cases hf : IOT_PRODUCTS.find? (fun p => p.name == n) with
      | some p => simp [get_expert_contact, hf]
      | none => simp [get_expert_contact, hf, OVERALL_EXPERTS]

/-- Witness for C9: a configured product name yields its dedicated expert,
an unknown name falls back to the first overall expert, and the no-argument
case returns an expert. -/
theorem claim_C9_expert_resolution_witness :
    get_expert_contact (some "Smart Thermostat")
        = some { name := "Mike Chen", email := "mike.chen@company.com",
                 phone := "+1-555-0103" } ∧
    get_expert_contact (some "Toaster") = OVERALL_EXPERTS.head? ∧
    (get_expert_contact none).isSome = true :=
  ⟨(claim_C9_expert_resolution (some "Smart Thermostat")).1
      { name := "Smart Thermostat", description := "AI-powered temperature control system",
        expert := { name := "Mike Chen", email := "mike.chen@company.com",
                    phone := "+1-555-0103" } }
      (by decide) rfl,
   (claim_C9_expert_resolution (some "Toaster")).2.1 (by decide),
   (claim_C9_expert_resolution none).2.2⟩

/-- C7.  When the durable layer cannot resolve the owner
(`db_manager.get_user_id` returns nothing) or cannot create the session row,
`create_session` returns no session ID and the in-memory state is exactly
the old state; in particular the fresh session id has no active record, no
counter and no feedback flag. -/
theorem claim_C7_create_failure_leaves_no_state (s : SMState)
    (session_id email phone language : String) (now : Int)
    (db_user_id : Option Nat) (db_create_ok : Bool)
    (hfail : db_user_id = none ∨ db_create_ok = false)
    (hfresh : lookup s.active_sessions session_id = none ∧
              lookup s.session_counters session_id = none ∧
              lookup s.feedback_shown session_id = none) :
    create_session s session_id email phone language now db_user_id db_create_ok = (none, s) ∧
    lookup (create_session s session_id email phone language now db_user_id db_create_ok).2.active_sessions session_id = none ∧
    lookup (create_session s session_id email phone language now db_user_id db_create_ok).2.session_counters session_id = none ∧
    lookup (create_session s session_id email phone language now db_user_id db_create_ok).2.feedback_shown session_id = none := by
  have hmain : create_session s session_id email phone language now db_user_id db_create_ok
      = (none, s) := by
    rcases hfail with h | h
    · subst h; rfl
    · cases db_user_id with
      | none => rfl
      | some u =>
        subst h
        simp [create_session]
  refine ⟨hmain, ?_, ?_, ?_⟩
  · rw [hmain]; exact hfresh.1
  · rw [hmain]; exact hfresh.2.1
  · rw [hmain]; exact hfresh.2.2

/-- Witness for C7 with a failing owner lookup on the empty manager. -/
theorem claim_C7_create_failure_leaves_no_state_witness :
    create_session SMState.empty "sX" "u@x.com" "9" "English" 5 none true
        = (none, SMState.empty) ∧
    lookup (create_session SMState.empty "sX" "u@x.com" "9" "English" 5 none true).2.active_sessions "sX" = none ∧
    lookup (create_session SMState.empty "sX" "u@x.com" "9" "English" 5 none true).2.session_counters "sX" = none ∧
    lookup (create_session SMState.empty "sX" "u@x.com" "9" "English" 5 none true).2.feedback_shown "sX" = none :=
  claim_C7_create_failure_leaves_no_state SMState.empty "sX" "u@x.com" "9" "English" 5 none true
    (Or.inl rfl) (by decide)

/-- C5.  For every query that is not a product-listing request,
`route_query_to_product` returns score `bestScore` (the maximum over the
products of `0.7·exact-fraction + 0.3·max-ratio`); below the `0.1` threshold
it returns no product together with that best score, and otherwise it
returns the first-declared product attaining the best score (every
earlier-declared product scores strictly lower, so ties go to the earlier
product). -/
theorem claim_C5_routing_first_best (query : String)
    (h : is_product_listing_request query = false) :
    ((route_query_to_product query).2 = bestScore query) ∧
    (bestScore query < (0.1 : ℚ) → (route_query_to_product query).1 = none) ∧
    ((0.1 : ℚ) ≤ bestScore query →
      ∃ i : Fin product_keywords.length,
        (route_query_to_product query).1 = some (product_keywords.get i).1 ∧
        calculate_similarity query (product_keywords.get i).2 = bestScore query ∧
        ∀ j : Fin product_keywords.length, (j : Nat) < (i : Nat) →
          calculate_similarity query (product_keywords.get j).2 < bestScore query) := by
  have hroute := route_query_eq_threshold query h
  have hsnd : (product_keywords.foldl (selStep Prod.fst (productScore query)) (none, (0 : ℚ))).2
      = bestScore query := by
    rw [foldl_selStep_snd]
    rfl
  by_cases hb : bestScore query < (0.1 : ℚ)
  · have hform : route_query_to_product query
        = (none,
           (product_keywords.foldl (selStep Prod.fst (productScore query)) (none, (0 : ℚ))).2) := by
      rw [hroute, if_pos]
      rw [hsnd]
      exact hb
    refine ⟨?_, ?_, ?_⟩
    · rw [hform]
      exact hsnd
    · intro _
      rw [hform]
    · intro hcontra
      exact absurd hb (not_lt.mpr hcontra)
  · have hform : route_query_to_product query
        = product_keywords.foldl (selStep Prod.fst (productScore query)) (none, (0 : ℚ)) := by
      rw [hroute, if_neg]
      rw [hsnd]
      exact hb
    refine ⟨?_, ?_, ?_⟩
    · rw [hform]
      exact hsnd
    · intro hlt
      exact absurd hlt hb
    · intro _
      have hge : (0.1 : ℚ) ≤ bestScore query := le_of_not_lt hb
      have hpos : (0 : ℚ) < product_keywords.foldl (maxStep (productScore query)) 0 :=
        lt_of_lt_of_le (by norm_num) hge
      rcases foldl_selStep_first_max Prod.fst (productScore query) product_keywords none 0 hpos
        with ⟨i, h1, h2, h3⟩
      refine ⟨i, ?_, h2, h3⟩
      rw [hform]
      exact h1

/-- Witness for C5: "hub" routes with the best score, and the best score of
the unmatched query "zzz" is below the threshold so no product is
returned. -/
theorem claim_C5_routing_first_best_witness :
    ((route_query_to_product "hub").2 = bestScore "hub") ∧
    ((route_query_to_product "zzz").1 = none) :=
  ⟨(claim_C5_routing_first_best "hub" (by decide)).1,
   (claim_C5_routing_first_best "zzz" (by decide)).2.1 (by decide)⟩

/-- C6.  For a live session (under the dictionary invariant that session ids
are unique): if its `last_activity` is older than `now - T`
(`T = SESSION_TIMEOUT`), `is_session_active` returns false and evicts it, so
`get_session_info` then reports not-found, and `cleanup_expired_sessions`
removes it; otherwise `is_session_active` returns true and
`cleanup_expired_sessions` leaves its record, counter and feedback flag
untouched. -/
theorem claim_C6_timeout_eviction (T now : Int) (s : SMState) (id : String)
    (info : SessionInfo)
    (hnd : (s.active_sessions.map Prod.fst).Nodup)
    (hlook : lookup s.active_sessions id = some info) :
    (info.last_activity < now - T →
      (is_session_active T s id now).1 = false ∧
      get_session_info (is_session_active T s id now).2 id = none ∧
      lookup (cleanup_expired_sessions T s now).active_sessions id = none) ∧
    (¬ info.last_activity < now - T →
      (is_session_active T s id now).1 = true ∧
      lookup (cleanup_expired_sessions T s now).active_sessions id = some info ∧
      lookup (cleanup_expired_sessions T s now).session_counters id
          = lookup s.session_counters id ∧
      lookup (cleanup_expired_sessions T s now).feedback_shown id
          = lookup s.feedback_shown id) := by
  constructor
  · intro hexp
    have hsnd : (is_session_active T s id now).2 = end_session s id := by
      simp [is_session_active, hlook, hexp]
    refine ⟨?_, ?_, ?_⟩
    · simp [is_session_active, hlook, hexp]
    · rw [hsnd]
      simp [get_session_info, end_session_active_self]
    · have hmem : id ∈ (s.active_sessions.filter
          (fun e => e.2.last_activity < now - T)).map Prod.fst :=
        List.mem_map.mpr ⟨(id, info),
          List.mem_filter.mpr ⟨mem_of_lookup_eq_some _ _ _ hlook, by simpa using hexp⟩, rfl⟩
      exact foldl_end_session_removes _ id hmem s
  · intro hnexp
    have hnotmem : id ∉ (s.active_sessions.filter
        (fun e => e.2.last_activity < now - T)).map Prod.fst := by
      intro hmem
      rcases List.mem_map.mp hmem with ⟨e, hef, he1⟩
      rcases List.mem_filter.mp hef with ⟨hemem, hepred⟩
      have : lookup s.active_sessions id = some e.2 := by
        have : (id, e.2) ∈ s.active_sessions := by
          have he : e = (id, e.2) := by
            rw [← he1]
          rw [← he]
          exact hemem
        exact lookup_eq_some_of_mem_nodup _ _ _ hnd this
      rw [hlook] at this
      rcases Option.some.inj this with rfl
      exact hnexp (by simpa using hepred)
    have hpres := foldl_end_session_not_mem _ id hnotmem s
    refine ⟨?_, ?_, ?_, ?_⟩
    · simp [is_session_active, hlook, hnexp]
    · exact hpres.1.trans hlook
    · exact hpres.2.1
    · exact hpres.2.2

/-- Witness for C6 on `demo_state_two` at time 1000000 with the configured
3600-second timeout: the idle session "old" is inactive and swept, the
fresh session "new" survives untouched. -/
theorem claim_C6_timeout_eviction_witness :
    ((is_session_active SESSION_TIMEOUT demo_state_two "old" 1000000).1 = false ∧
     get_session_info (is_session_active SESSION_TIMEOUT demo_state_two "old" 1000000).2 "old"
        = none ∧
     lookup (cleanup_expired_sessions SESSION_TIMEOUT demo_state_two 1000000).active_sessions "old"
        = none) ∧
    ((is_session_active SESSION_TIMEOUT demo_state_two "new" 1000000).1 = true ∧
     lookup (cleanup_expired_sessions SESSION_TIMEOUT demo_state_two 1000000).active_sessions "new"
        = some { email := "b@x.com", phone := "2", language := "Malay", created_at := 1000000,
                 last_activity := 1000000, question_count := 0, product_involved := none,
                 expert_contacted := false } ∧
     lookup (cleanup_expired_sessions SESSION_TIMEOUT demo_state_two 1000000).session_counters "new"
        = lookup demo_state_two.session_counters "new" ∧
     lookup (cleanup_expired_sessions SESSION_TIMEOUT demo_state_two 1000000).feedback_shown "new"
        = lookup demo_state_two.feedback_shown "new") :=
  ⟨(claim_C6_timeout_eviction SESSION_TIMEOUT 1000000 demo_state_two "old"
      { email := "a@x.com", phone := "1", language := "English", created_at := 0,
        last_activity := 0, question_count := 0, product_involved := none,
        expert_contacted := false } (by decide) (by decide)).1 (by decide),
   (claim_C6_timeout_eviction SESSION_TIMEOUT 1000000 demo_state_two "new"
      { email := "b@x.com", phone := "2", language := "Malay", created_at := 1000000,
        last_activity := 1000000, question_count := 0, product_involved := none,
        expert_contacted := false } (by decide) (by decide)).2 (by decide)⟩

/-- C8.  Submitting the rating "skipped" stores the normalized rating
"unsatisfied" in the durable feedback table, while the template chosen for
display is the "skipped" category (selected by the original, un-normalized
rating in the session's language); any rating outside
{satisfied, unsatisfied, skipped} is rejected by `save_feedback` with no
state change. -/
theorem claim_C8_skipped_normalization (st : FMState) (session_id : String) :
    ((process_feedback_response true st session_id "skipped").2.feedback_rows
        = st.feedback_rows ++ [(session_id, "unsatisfied")]) ∧
    ((process_feedback_response true st session_id "skipped").1.template
        = get_feedback_template "skipped"
            (match get_session_info
                (process_feedback_response true st session_id "skipped").2.sm session_id with
             | some info => info.language
             | none => "English")) ∧
    (∀ language : String,
      get_feedback_template "skipped" language = skipped_template.display language) ∧
    (∀ language : String,
      get_feedback_template "skipped" language ≠ get_feedback_template "unsatisfied" language) ∧
    (∀ (db_ok : Bool) (rating : String),
      rating ≠ "satisfied" → rating ≠ "unsatisfied" → rating ≠ "skipped" →
      save_feedback db_ok st session_id rating = (false, st)) := by
  have hsave : save_feedback true st session_id "unsatisfied"
      = (true, { sm := mark_expert_contacted st.sm session_id,
                 feedback_rows := st.feedback_rows ++ [(session_id, "unsatisfied")] }) := by
    simp [save_feedback]
  refine ⟨?_, ?_, ?_, ?_, ?_⟩
  · simp [process_feedback_response, hsave]
  · simp [process_feedback_response, hsave]
  · intro language
    simp [get_feedback_template]
  · intro language
    by_cases hm : language = "Malay"
    · subst hm
      decide
    · simp [get_feedback_template, skipped_template, unsatisfied_template,
        FeedbackTemplate.display, hm]
  · intro db_ok rating h1 h2 h3
    simp [save_feedback, h1, h2, h3]

/-- Witness for C8 on the concrete session: the "skipped" rating is stored
as "unsatisfied", the skipped-category template is displayed, and an invalid
rating is rejected without a state change. -/
theorem claim_C8_skipped_normalization_witness :
    ((process_feedback_response true demo_fm "s1" "skipped").2.feedback_rows
        = demo_fm.feedback_rows ++ [("s1", "unsatisfied")]) ∧
    (get_feedback_template "skipped" "English" = skipped_template.display "English") ∧
    (get_feedback_template "skipped" "English" ≠ get_feedback_template "unsatisfied" "English") ∧
    (save_feedback true demo_fm "s1" "great" = (false, demo_fm)) :=
  ⟨(claim_C8_skipped_normalization demo_fm "s1").1,
   (claim_C8_skipped_normalization demo_fm "s1").2.2.1 "English",
   (claim_C8_skipped_normalization demo_fm "s1").2.2.2.1 "English",
   (claim_C8_skipped_normalization demo_fm "s1").2.2.2.2 true "great"
     (by decide) (by decide) (by decide)⟩
